import Mathlib

/-!
Verification development for the luv loop/poll binding layer
(src/loop.c, src/poll.c, src/metrics.c).

The C sources are shallowly embedded: each Lua-facing binding function
becomes a Lean function over an explicit state/argument model, with the
native libuv engine's returns supplied as oracle parameters (the engine
is an external collaborator, specified at its interface boundary).
Repository helpers that are not among the given sources (luv_error,
luv_result, luv_call_callback, luv_setup_handle, ctx->pcall, uv_walk's
dispatch discipline) are modelled from the spec, as marked in their doc
comments.
-/

/-- Outcome of a Lua-facing binding call:
`ok` — normal return value;
`err` — a reported named error (the binding returns nil plus an error
value built from a negative native status code, per luv_error/luv_result);
`raised` — a synchronous Lua error raised at the call boundary
(luaL_checkoption / luaL_argcheck / luaL_checkudata usage errors). -/
inductive LuaOutcome (α : Type) where
  | ok (a : α)
  | err (code : Int)
  | raised (msg : String)
deriving DecidableEq

/-- True exactly on the `raised` constructor: the call ended in a
synchronous usage error at the call boundary. -/
def LuaOutcome.isRaised {α : Type} : LuaOutcome α → Bool
  | .raised _ => true
  | _ => false

/-- Index of the first occurrence of `s` in `lst`, as C's
`luaL_checkoption` scans its NULL-terminated name list. -/
def optIndex (lst : List String) (s : String) : Option Nat :=
  match lst with
  | [] => none
  | x :: xs => if x = s then some 0 else (optIndex xs s).map (· + 1)

/-- Embedding of `luaL_checkoption(L, arg, def, lst)`: when the argument
is absent or nil (`none`) and a default is supplied, the default string
is looked up instead; a string outside the list raises an argument
error before the binding proceeds. -/
def luaL_checkoption (lst : List String) (dflt : Option String)
    (arg : Option String) : Except String Nat :=
  match (match arg with | none => dflt | some v => some v) with
  | none => .error "string expected"
  | some s =>
    match optIndex lst s with
    | some i => .ok i
    | none => .error (s ++ " is an invalid option")

theorem optIndex_eq_none_of_not_mem (s : String) (lst : List String)
    (h : s ∉ lst) : optIndex lst s = none := by
  induction lst with
  | nil => rfl
  | cons x xs ih =>
    simp only [List.mem_cons, not_or] at h
    have hxs : ¬ x = s := fun hx => h.1 hx.symm
    simp only [optIndex, if_neg hxs, ih h.2, Option.map_none']

/- ------------------------------------------------------------------
Loop controller: src/loop.c
------------------------------------------------------------------ -/

-- loop.c: static const char *const luv_runmodes[] =
--   { "default", "once", "nowait", NULL };
def luv_runmodes : List String := ["default", "once", "nowait"]

/-- The per-Lua-state context's run-mode register (`luv_ctx_t.mode`);
`-1` is the unset/idle value, otherwise an index into `luv_runmodes`. -/
structure LoopCtx where
  mode : Int
deriving DecidableEq

/-- Observable trace of one `luv_run` call: whether `uv_run` was
entered, the value the mode register held while `uv_run` executed
(visible to re-entrant `loop_mode` queries from callbacks), the context
after return, and the Lua-level outcome. -/
structure RunTrace where
  nativeCalled : Bool
  modeDuringNative : Option Int
  ctxAfter : LoopCtx
  outcome : LuaOutcome Bool
deriving DecidableEq

/-- Embedding of `luv_run` (loop.c). `engine m` is the status code
`uv_run(ctx->loop, m)` returns for mode index `m` (negative = named
error, per the external-engine interface). The source sets
`ctx->mode = mode`, calls `uv_run`, resets `ctx->mode = -1`
unconditionally, and only then translates the status: negative to
`luv_error`, otherwise `lua_pushboolean(L, ret)`. -/
def luv_run (engine : Nat → Int) (arg : Option String) (ctx : LoopCtx) :
    RunTrace :=
  match luaL_checkoption luv_runmodes (some "default") arg with
  | .error e =>
    { nativeCalled := false, modeDuringNative := none,
      ctxAfter := ctx, outcome := .raised e }
  | .ok m =>
    let ret := engine m
    { nativeCalled := true, modeDuringNative := some (m : Int),
      ctxAfter := { mode := -1 },
      outcome := if ret < 0 then .err ret else .ok (ret != 0) }

/-- Embedding of `luv_loop_mode` (loop.c): nil when the register is
`-1`, else the run-mode string it indexes. -/
def luv_loop_mode (ctx : LoopCtx) : Option String :=
  if ctx.mode = -1 then none
  else some (luv_runmodes.getD ctx.mode.toNat "")

/-- Embedding of `luv_backend_fd` (loop.c): `nativeFd` is what
`uv_backend_fd` returns; `-1` (no backend fd, e.g. on Windows) maps to
nil, anything else is returned as an integer. -/
def luv_backend_fd (nativeFd : Int) : Option Int :=
  if nativeFd = -1 then none else some nativeFd

/-- Embedding of `luv_backend_timeout` (loop.c): the native return is
pushed unchanged as an integer (milliseconds, `-1` = no timeout). -/
def luv_backend_timeout (nativeTimeout : Int) : Int := nativeTimeout

/-- Modelled from the spec: the native engine's backend-timeout query
(`uv_backend_timeout`, external collaborator, §6c) returns the next
computed timeout in milliseconds, and the no-timeout sentinel `-1`
when no active watch is pending (`pending = none`). -/
def uv_backend_timeout_model (pending : Option Nat) : Int :=
  match pending with
  | none => -1
  | some t => (t : Int)

/- ------------------------------------------------------------------
Claims C4, C5 — run-mode register discipline and drive result
------------------------------------------------------------------ -/

/-- C4: for every valid mode `m`, `luv_run` holds the run-mode register
at `m` while `uv_run` executes and resets it to the unset value `-1`
before returning, whatever status the native call returns (the reset is
unconditional in the source, so both the success and the error path see
it); consequently `loop_mode` queried during the drive reports the mode
string, and queried after any drive call has returned reports nil. -/
theorem run_mode_register_discipline (engine : Nat → Int)
    (arg : Option String) (ctx : LoopCtx) (m : Nat)
    (hm : luaL_checkoption luv_runmodes (some "default") arg = .ok m) :
    (luv_run engine arg ctx).modeDuringNative = some (m : Int) ∧
    (luv_run engine arg ctx).ctxAfter.mode = -1 ∧
    luv_loop_mode (luv_run engine arg ctx).ctxAfter = none ∧
    luv_loop_mode { mode := (m : Int) } =
      some (luv_runmodes.getD m "") := by
  have hne : ((m : Int)) ≠ -1 := by omega
  refine ⟨?_, ?_, ?_, ?_⟩ <;>
    simp [luv_run, hm, luv_loop_mode, hne, Int.toNat_natCast]

/-- Witness for C4: drive with mode "nowait" at a concrete engine. -/
theorem run_mode_register_discipline_witness :
    (luv_run (fun _ => 0) (some "nowait") { mode := -1 }).ctxAfter.mode
        = -1 ∧
    luv_loop_mode
      (luv_run (fun _ => 0) (some "nowait") { mode := -1 }).ctxAfter
        = none :=
  ⟨(run_mode_register_discipline (fun _ => 0) (some "nowait")
      { mode := -1 } 2 (by rfl)).2.1,
   (run_mode_register_discipline (fun _ => 0) (some "nowait")
      { mode := -1 } 2 (by rfl)).2.2.1⟩

/-- C5: for every valid mode, `luv_run` returns the boolean `true`
exactly when the native drive primitive returns a nonzero (positive)
status — further callbacks may be expected — and `false` when it
returns zero; a negative native status is translated to a reported
named error instead of a boolean. -/
theorem run_result_translation (engine : Nat → Int)
    (arg : Option String) (ctx : LoopCtx) (m : Nat)
    (hm : luaL_checkoption luv_runmodes (some "default") arg = .ok m) :
    (0 ≤ engine m →
      (luv_run engine arg ctx).outcome = .ok (engine m != 0)) ∧
    (engine m < 0 →
      (luv_run engine arg ctx).outcome = .err (engine m)) := by
  constructor
  · intro h
    simp [luv_run, hm, not_lt.mpr h]
  · intro h
    simp [luv_run, hm, h]

/-- Witness for C5: both the boolean and the error translation at
concrete engines (default mode, engine returning 1 and -16). -/
theorem run_result_translation_witness :
    (luv_run (fun _ => 1) none { mode := -1 }).outcome = .ok true ∧
    (luv_run (fun _ => -16) none { mode := -1 }).outcome = .err (-16) :=
  ⟨(run_result_translation (fun _ => 1) none { mode := -1 } 0
      (by rfl)).1 (by decide),
   (run_result_translation (fun _ => -16) none { mode := -1 } 0
      (by rfl)).2 (by decide)⟩

/- ------------------------------------------------------------------
Poll handle: src/poll.c
------------------------------------------------------------------ -/

-- libuv's uv_poll_event bits (uv.h): UV_READABLE = 1, UV_WRITABLE = 2,
-- UV_DISCONNECT = 4, UV_PRIORITIZED = 8.
def UV_READABLE : Nat := 1
def UV_WRITABLE : Nat := 2
def UV_DISCONNECT : Nat := 4
def UV_PRIORITIZED : Nat := 8

/-- The native handle's type tag (`handle->type`); only `UV_POLL`
matters to the claims, every other tag is collapsed to `UV_OTHER`. -/
inductive HandleType where
  | UV_POLL
  | UV_OTHER
deriving DecidableEq

/-- The observable state of a `uv_poll_t` plus its binding bookkeeping:
the native type tag, whether `handle->data` carries the bridge
association (set by luv_setup_handle), whether the native watch is
active, and the watched event mask. -/
structure PollHandle where
  typ : HandleType
  dataSet : Bool
  active : Bool
  watchedEvents : Nat
deriving DecidableEq

/-- Host-language (Lua) values as far as the bindings inspect them. -/
inductive LuaValue where
  | nil
  | boolean (b : Bool)
  | number (n : Int)
  | str (s : String)
  | func (id : Nat)
  | udata (meta : String) (h : PollHandle)
deriving DecidableEq

/-- Embedding of `luv_check_poll` (poll.c): `luv_checkudata` raises
unless the value is a userdata with the `"uv_poll"` metatable, and
`luaL_argcheck` then raises unless `handle->type == UV_POLL` and
`handle->data` is set. -/
def luv_check_poll (v : LuaValue) : Except String PollHandle :=
  match v with
  | .udata meta h =>
    if meta = "uv_poll" then
      if h.typ = .UV_POLL ∧ h.dataSet = true then .ok h
      else .error "Expected uv_poll_t"
    else .error "uv_poll expected"
  | _ => .error "uv_poll expected"

/-- True exactly when `luv_check_poll` accepts the value. -/
def checkPollAccepts (v : LuaValue) : Bool :=
  match luv_check_poll v with
  | .ok _ => true
  | .error _ => false

-- poll.c: static const char *const luv_pollevents[], with the "d" block
-- under LUV_UV_VERSION_GEQ(1, 9, 0) and the "p" block under
-- LUV_UV_VERSION_GEQ(1, 14, 0).
def luv_pollevents (geq_1_9 geq_1_14 : Bool) : List String :=
  ["r", "w", "rw"]
    ++ (if geq_1_9 then ["d", "rd", "wd", "rwd"] else [])
    ++ (if geq_1_14 then
          ["p", "rp", "wp", "rwp", "dp", "rdp", "wdp", "rwdp"] else [])

/-- The `switch (events)` of `luv_poll_cb` (poll.c): an exact finite
table from the event bitmask to its label, with the disconnect cases
compiled in only when `geq_1_9` and the prioritized cases only when
`geq_1_14`; any mask not matched falls to `default: evtstr = ""`. -/
def pollEventLabel (geq_1_9 geq_1_14 : Bool) (events : Nat) : String :=
  if events = UV_READABLE then "r"
  else if events = UV_WRITABLE then "w"
  else if events = UV_READABLE ||| UV_WRITABLE then "rw"
  else if geq_1_9 = true ∧ events = UV_DISCONNECT then "d"
  else if geq_1_9 = true ∧ events = UV_READABLE ||| UV_DISCONNECT then "rd"
  else if geq_1_9 = true ∧ events = UV_WRITABLE ||| UV_DISCONNECT then "wd"
  else if geq_1_9 = true ∧
      events = UV_READABLE ||| UV_WRITABLE ||| UV_DISCONNECT then "rwd"
  else if geq_1_14 = true ∧ events = UV_PRIORITIZED then "p"
  else if geq_1_14 = true ∧
      events = UV_READABLE ||| UV_PRIORITIZED then "rp"
  else if geq_1_14 = true ∧
      events = UV_WRITABLE ||| UV_PRIORITIZED then "wp"
  else if geq_1_14 = true ∧
      events = UV_READABLE ||| UV_WRITABLE ||| UV_PRIORITIZED then "rwp"
  else if geq_1_14 = true ∧
      events = UV_DISCONNECT ||| UV_PRIORITIZED then "dp"
  else if geq_1_14 = true ∧
      events = UV_READABLE ||| UV_DISCONNECT ||| UV_PRIORITIZED then "rdp"
  else if geq_1_14 = true ∧
      events = UV_WRITABLE ||| UV_DISCONNECT ||| UV_PRIORITIZED then "wdp"
  else if geq_1_14 = true ∧
      events = UV_READABLE ||| UV_WRITABLE ||| UV_DISCONNECT |||
        UV_PRIORITIZED then "rwdp"
  else ""

/-- One delivery to the registered Lua callback: the error argument
(nil or the error name string), the event-label argument, whether a
diagnostic line was written to stderr, and the list of callback
invocations this delivery performed (each with its two arguments). -/
structure PollCbOut where
  errArg : Option String
  evtArg : String
  stderrReport : Bool
  invocations : List (Option String × String)
deriving DecidableEq

/-- Embedding of `luv_poll_cb` (poll.c): on negative status it prints
`uv_err_name(status): uv_strerror(status)` to stderr and pushes the
error name, otherwise pushes nil; pushes the label computed by the
`switch (events)` table; then makes exactly one
`luv_call_callback(L, data, LUV_POLL, 2)` call with those two
arguments. `err_name` stands for the external `uv_err_name`. -/
def luv_poll_cb (geq_1_9 geq_1_14 : Bool) (err_name : Int → String)
    (status : Int) (events : Nat) : PollCbOut :=
  let errArg := if status < 0 then some (err_name status) else none
  let evtArg := pollEventLabel geq_1_9 geq_1_14 events
  { errArg := errArg, evtArg := evtArg,
    stderrReport := decide (status < 0),
    invocations := [(errArg, evtArg)] }

/-- The spec's event labeling: one letter per set bit of the mask, in
the order readable, writable, disconnect, prioritized. Stated from the
spec's words (§6: poll event mask enumeration) to be compared with the
source's switch table. -/
def specEventLabel (events : Nat) : String :=
  (if events &&& UV_READABLE ≠ 0 then "r" else "")
    ++ (if events &&& UV_WRITABLE ≠ 0 then "w" else "")
    ++ (if events &&& UV_DISCONNECT ≠ 0 then "d" else "")
    ++ (if events &&& UV_PRIORITIZED ≠ 0 then "p" else "")

/-- The `switch` of `luv_poll_start` (poll.c): checkoption index to
event bitmask, fully-featured build (both version gates compiled in);
the default arm is unreachable for indices the option list produces. -/
def pollStartEvents (idx : Nat) : Nat :=
  match idx with
  | 0 => UV_READABLE
  | 1 => UV_WRITABLE
  | 2 => UV_READABLE ||| UV_WRITABLE
  | 3 => UV_DISCONNECT
  | 4 => UV_READABLE ||| UV_DISCONNECT
  | 5 => UV_WRITABLE ||| UV_DISCONNECT
  | 6 => UV_READABLE ||| UV_WRITABLE ||| UV_DISCONNECT
  | 7 => UV_PRIORITIZED
  | 8 => UV_READABLE ||| UV_PRIORITIZED
  | 9 => UV_WRITABLE ||| UV_PRIORITIZED
  | 10 => UV_READABLE ||| UV_WRITABLE ||| UV_PRIORITIZED
  | 11 => UV_DISCONNECT ||| UV_PRIORITIZED
  | 12 => UV_READABLE ||| UV_DISCONNECT ||| UV_PRIORITIZED
  | 13 => UV_WRITABLE ||| UV_DISCONNECT ||| UV_PRIORITIZED
  | 14 => UV_READABLE ||| UV_WRITABLE ||| UV_DISCONNECT ||| UV_PRIORITIZED
  | _ => 0

/-- Modelled from the spec: `luv_check_callback` (handle code outside
the given sources) checks the argument is callable and installs it in
the handle's callback slot for the event kind, raising a usage error
otherwise (§4.2, §7 usage errors). -/
def luv_check_callback (v : LuaValue) : Except String Unit :=
  match v with
  | .func _ => .ok ()
  | _ => .error "function expected"

/-- Modelled from the spec: `luv_result` (util code outside the given
sources) translates a negative native status into a reported named
error and otherwise returns the non-negative status as the success
value (§7 engine status errors). -/
def luv_result (ret : Int) : LuaOutcome Int :=
  if ret < 0 then .err ret else .ok ret

/-- Modelled from the spec: the external engine's `uv_poll_start`
primitive (§6a) returns a signed status (supplied here as the oracle
`nativeRet`); on a non-negative status the handle is actively watching
the requested mask, on a negative status the handle is unchanged. -/
def uv_poll_start_model (nativeRet : Int) (h : PollHandle)
    (events : Nat) : Int × PollHandle :=
  if nativeRet < 0 then (nativeRet, h)
  else (nativeRet, { h with active := true, watchedEvents := events })

/-- Modelled from the spec: the external engine's `uv_poll_stop`
primitive halts monitoring and is idempotent if already stopped
(§4.4); it reports success (status 0) in both cases. -/
def uv_poll_stop_model (h : PollHandle) : Int × PollHandle :=
  (0, { h with active := false })

/-- Observable trace of one `luv_poll_start` or `luv_poll_stop` call:
whether the native primitive was entered, the event mask requested of
it (`none` when it was never reached), the first argument's value after
the call (with the handle state updated when the native call ran), and
the Lua-level outcome. -/
structure PollCallTrace where
  nativeCalled : Bool
  eventsRequested : Option Nat
  valueAfter : LuaValue
  outcome : LuaOutcome Int
deriving DecidableEq

/-- Embedding of `luv_poll_start` (poll.c): checks the poll handle
(arg 1), resolves the event-mask option with default `"rw"` (arg 2),
checks and installs the callback (arg 3), and only then calls
`uv_poll_start(handle, events, luv_poll_cb)`, returning via
`luv_result`. -/
def luv_poll_start (nativeRet : Int) (v : LuaValue)
    (mask : Option String) (cb : LuaValue) : PollCallTrace :=
  match luv_check_poll v with
  | .error e =>
    { nativeCalled := false, eventsRequested := none,
      valueAfter := v, outcome := .raised e }
  | .ok h =>
    match luaL_checkoption (luv_pollevents true true) (some "rw") mask with
    | .error e =>
      { nativeCalled := false, eventsRequested := none,
        valueAfter := v, outcome := .raised e }
    | .ok idx =>
      match luv_check_callback cb with
      | .error e =>
        { nativeCalled := false, eventsRequested := none,
          valueAfter := v, outcome := .raised e }
      | .ok _ =>
        let events := pollStartEvents idx
        let r := uv_poll_start_model nativeRet h events
        { nativeCalled := true, eventsRequested := some events,
          valueAfter := .udata "uv_poll" r.2,
          outcome := luv_result r.1 }

/-- Embedding of `luv_poll_stop` (poll.c): checks the poll handle, then
calls `uv_poll_stop(handle)` and returns via `luv_result`. -/
def luv_poll_stop (v : LuaValue) : PollCallTrace :=
  match luv_check_poll v with
  | .error e =>
    { nativeCalled := false, eventsRequested := none,
      valueAfter := v, outcome := .raised e }
  | .ok h =>
    let r := uv_poll_stop_model h
    { nativeCalled := true, eventsRequested := none,
      valueAfter := .udata "uv_poll" r.2,
      outcome := luv_result r.1 }

/-- Modelled from the spec: the engine delivers a readiness callback
only for a handle that is still actively watching — once `stop()` has
returned, no further event fires for that handle (§5 Ordering,
Cancellation). An active handle's delivery runs `luv_poll_cb`. -/
def deliverPoll (err_name : Int → String) (h : PollHandle)
    (status : Int) (events : Nat) : Option PollCbOut :=
  if h.active then some (luv_poll_cb true true err_name status events)
  else none

/-- Observable trace of `luv_new_poll` / `luv_new_socket_poll`:
whether the wrapper's bridge association was established
(`luv_setup_handle` reached), and the outcome. -/
structure NewPollTrace where
  registered : Bool
  outcome : LuaOutcome PollHandle
deriving DecidableEq

/-- Embedding of `luv_new_poll` (poll.c): allocates the userdata, calls
`uv_poll_init(ctx->loop, handle, fd)` (its status supplied by the
oracle `uv_poll_init_ret`); on a negative status pops the userdata —
discarding the partially-created object — and returns `luv_error`;
otherwise `handle->data = luv_setup_handle(L, ctx)` establishes the
bridge association and the wrapper is returned. -/
def luv_new_poll (uv_poll_init_ret : Int → Int) (fd : Int) :
    NewPollTrace :=
  let ret := uv_poll_init_ret fd
  if ret < 0 then { registered := false, outcome := .err ret }
  else
    { registered := true,
      outcome := .ok { typ := .UV_POLL, dataSet := true,
                       active := false, watchedEvents := 0 } }

/-- Embedding of `luv_new_socket_poll` (poll.c): identical to
`luv_new_poll` except the native init is `uv_poll_init_socket`
(status supplied by the oracle `uv_poll_init_socket_ret`). -/
def luv_new_socket_poll (uv_poll_init_socket_ret : Int → Int)
    (fd : Int) : NewPollTrace :=
  let ret := uv_poll_init_socket_ret fd
  if ret < 0 then { registered := false, outcome := .err ret }
  else
    { registered := true,
      outcome := .ok { typ := .UV_POLL, dataSet := true,
                       active := false, watchedEvents := 0 } }

/- ------------------------------------------------------------------
Walk: src/loop.c luv_walk / luv_walk_cb
------------------------------------------------------------------ -/

/-- A host walk callback, as the model sees it: given the handle being
visited and the currently registered handle set, it returns either a
host error or success, together with the handle set as mutated by its
side effects (it may stop or close any handle, including the one it is
visiting). -/
def HostWalkCb : Type :=
  Nat → List Nat → Except String Unit × List Nat

/-- The loop state the walk threads: the registered handle set, the
handles visited so far, and the host errors caught and reported at the
invocation boundary. -/
structure WalkState where
  handles : List Nat
  visited : List Nat
  errorsReported : List String
deriving DecidableEq

/-- Modelled from the spec: `ctx->pcall` (context code outside the
given sources) is a protected call — a failure raised inside the host
callback is caught at this boundary and converted into a reported
condition, never propagated into the native engine (§4.2). -/
def luv_pcall (r : Except String Unit) : Option String :=
  match r with
  | .ok _ => none
  | .error e => some e

/-- Embedding of `luv_walk_cb` (loop.c): resolves the wrapper for the
handle being visited and invokes the host callback through
`data->ctx->pcall(L, 1, 0, 0)`; a host error is captured by the
protected call and reported, and the callback's mutation of the handle
set takes effect. -/
def luv_walk_cb (cb : HostWalkCb) (h : Nat) (st : WalkState) :
    WalkState :=
  let r := cb h st.handles
  { handles := r.2,
    visited := st.visited ++ [h],
    errorsReported := st.errorsReported ++ (luv_pcall r.1).toList }

/-- Modelled from the spec: the external engine's `uv_walk` primitive
invokes the trampoline once per live handle (§6d); iteration is over
the set registered when the walk starts and is safe against the
trampoline removing handles (§4.3). -/
def uv_walk (st : WalkState) (tramp : Nat → WalkState → WalkState) :
    WalkState :=
  st.handles.foldl (fun s h => tramp h s) st

/-- Embedding of `luv_walk` (loop.c): checks the argument is a
function, then `uv_walk(luv_loop(L), luv_walk_cb, L)`. -/
def luv_walk (cb : HostWalkCb) (st : WalkState) : WalkState :=
  uv_walk st (luv_walk_cb cb)

/- ------------------------------------------------------------------
Claim theorems
------------------------------------------------------------------ -/

theorem pollEventLabel_eq_spec :
    ∀ e, 1 ≤ e → e ≤ 15 →
      pollEventLabel true true e = specEventLabel e := by decide

/-- C2: for every poll delivery with non-negative status, the event
label is an exact finite table lookup on the bitmask — on a
fully-featured engine each of the 15 readable/writable/disconnect/
prioritized combinations maps to its unique label (the spec's
letter-per-bit labeling in order r, w, d, p, matching the option list),
and a minimal engine's list has just "r", "w", "rw"; in particular a
combined readable+writable event gives exactly one invocation labeled
"rw", not two separate calls. -/
theorem poll_event_label_table (err_name : Int → String) (status : Int)
    (hs : 0 ≤ status) :
    (∀ e, 1 ≤ e → e ≤ 15 →
      (luv_poll_cb true true err_name status e).invocations
        = [(none, specEventLabel e)]) ∧
    (∀ e, 1 ≤ e → e ≤ 15 → ∀ x, 1 ≤ x → x ≤ 15 →
      specEventLabel e = specEventLabel x → e = x) ∧
    luv_pollevents true true
      = (List.range 15).map (fun i => specEventLabel (i + 1)) ∧
    luv_pollevents false false = ["r", "w", "rw"] ∧
    (luv_poll_cb true true err_name status
        (UV_READABLE ||| UV_WRITABLE)).invocations
      = [(none, "rw")] := by
  have hno : ¬ status < 0 := not_lt.mpr hs
  refine ⟨?_, by decide, by decide, by decide, ?_⟩
  · intro e h1 h2
    simp [luv_poll_cb, hno, pollEventLabel_eq_spec e h1 h2]
  · simp [luv_poll_cb, hno]
    decide

/-- Witness for C2: the combined readable+writable delivery at a
concrete status and error-name map. -/
theorem poll_event_label_table_witness :
    (luv_poll_cb true true (fun _ => "E") 0
        (UV_READABLE ||| UV_WRITABLE)).invocations
      = [(none, "rw")] :=
  (poll_event_label_table (fun _ => "E") 0 (by decide)).2.2.2.2

/-- C3: a delivery with negative native status hands the registered
callback the error name as first argument and the empty event label as
second (the engine reports no events on an error delivery), and writes
a diagnostic line to stderr rather than crashing; a delivery with
non-negative status hands nil as the first argument and writes no
diagnostic. -/
theorem poll_error_delivery (geq_1_9 geq_1_14 : Bool)
    (err_name : Int → String) (status : Int) :
    (status < 0 →
      (luv_poll_cb geq_1_9 geq_1_14 err_name status 0).invocations
          = [(some (err_name status), "")] ∧
      (luv_poll_cb geq_1_9 geq_1_14 err_name status 0).stderrReport
          = true) ∧
    (0 ≤ status → ∀ events,
      (luv_poll_cb geq_1_9 geq_1_14 err_name status events).errArg
          = none ∧
      (luv_poll_cb geq_1_9 geq_1_14 err_name status events).stderrReport
          = false) := by
  constructor
  · intro h
    simp [luv_poll_cb, h, pollEventLabel, UV_READABLE, UV_WRITABLE,
      UV_DISCONNECT, UV_PRIORITIZED]
  · intro h events
    simp [luv_poll_cb, not_lt.mpr h]

/-- Witness for C3: a concrete negative-status delivery and a concrete
success delivery. -/
theorem poll_error_delivery_witness :
    (luv_poll_cb true true (fun _ => "EBADF") (-9) 0).invocations
        = [(some "EBADF", "")] ∧
    (luv_poll_cb true true (fun _ => "EBADF") 0 1).errArg = none :=
  ⟨((poll_error_delivery true true (fun _ => "EBADF") (-9)).1
      (by decide)).1,
   ((poll_error_delivery true true (fun _ => "EBADF") 0).2
      (by decide) 1).1⟩

theorem walk_visited_aux (cb : HostWalkCb) :
    ∀ (l : List Nat) (st : WalkState),
      (l.foldl (fun s h => luv_walk_cb cb h s) st).visited
        = st.visited ++ l := by
  intro l
  induction l with
  | nil => intro st; simp
  | cons x xs ih =>
    intro st
    rw [List.foldl_cons, ih]
    simp [luv_walk_cb]

theorem walk_errors_aux (e : String) :
    ∀ (l : List Nat) (st : WalkState),
      WalkState.errorsReported
          (l.foldl
            (fun s h =>
              luv_walk_cb (fun _ hs => (Except.error e, hs)) h s) st)
        = st.errorsReported ++ l.map (fun _ => e) := by
  intro l
  induction l with
  | nil => intro st; simp
  | cons x xs ih =>
    intro st
    rw [List.foldl_cons, ih]
    simp [luv_walk_cb, luv_pcall]

/-- C1: `luv_walk` invokes the host callback, through the protected
call, exactly once for each handle registered when the walk starts —
in order, completing the iteration — for every callback, including one
that errors or stops/closes the handle it is visiting (the callback may
mutate the registered set arbitrarily); a callback that always errors
still gets its error caught and reported at the boundary once per
handle, never propagated into the native walk. -/
theorem walk_invokes_once_per_handle (cb : HostWalkCb)
    (st : WalkState) :
    (luv_walk cb st).visited = st.visited ++ st.handles ∧
    (∀ e : String,
      (luv_walk (fun _ hs => (Except.error e, hs)) st).errorsReported
          = st.errorsReported ++ st.handles.map (fun _ => e) ∧
      (luv_walk (fun _ hs => (Except.error e, hs)) st).visited
          = st.visited ++ st.handles) := by
  refine ⟨?_, fun e => ⟨?_, ?_⟩⟩
  · exact walk_visited_aux cb st.handles st
  · exact walk_errors_aux e st.handles st
  · exact walk_visited_aux _ st.handles st

/-- C6: a drive call with a mode string outside the run-mode list, a
poll start with an event-mask string outside the option list, and any
poll start/stop on a value `luv_check_poll` rejects, each raise a
usage error synchronously at the call boundary: the native primitive
is never entered and the loop context / argument value are left
untouched. -/
theorem usage_errors_precede_native_calls :
    (∀ (engine : Nat → Int) (ctx : LoopCtx) (s : String),
      s ∉ luv_runmodes →
      (luv_run engine (some s) ctx).nativeCalled = false ∧
      (luv_run engine (some s) ctx).ctxAfter = ctx ∧
      (luv_run engine (some s) ctx).outcome.isRaised = true) ∧
    (∀ (nativeRet : Int) (v : LuaValue) (s : String) (cb : LuaValue),
      s ∉ luv_pollevents true true →
      (luv_poll_start nativeRet v (some s) cb).nativeCalled = false ∧
      (luv_poll_start nativeRet v (some s) cb).valueAfter = v ∧
      (luv_poll_start nativeRet v (some s) cb).outcome.isRaised
        = true) ∧
    (∀ (nativeRet : Int) (v : LuaValue) (mask : Option String)
        (cb : LuaValue),
      checkPollAccepts v = false →
      (luv_poll_start nativeRet v mask cb).nativeCalled = false ∧
      (luv_poll_start nativeRet v mask cb).valueAfter = v ∧
      (luv_poll_start nativeRet v mask cb).outcome.isRaised = true ∧
      (luv_poll_stop v).nativeCalled = false ∧
      (luv_poll_stop v).valueAfter = v ∧
      (luv_poll_stop v).outcome.isRaised = true) := by
  refine ⟨?_, ?_, ?_⟩
  · intro engine ctx s hs
    simp [luv_run, luaL_checkoption,
      optIndex_eq_none_of_not_mem s _ hs, LuaOutcome.isRaised]
  · intro nativeRet v s cb hs
    cases hv : luv_check_poll v <;>
      simp [luv_poll_start, hv, luaL_checkoption,
        optIndex_eq_none_of_not_mem s _ hs, LuaOutcome.isRaised]
  · intro nativeRet v mask cb hrej
    cases hv : luv_check_poll v with
    | error e =>
      simp [luv_poll_start, luv_poll_stop, hv, LuaOutcome.isRaised]
    | ok h =>
      simp [checkPollAccepts, hv] at hrej

/-- Witness for C6: a bad mode string, a bad mask string, and a
non-poll first argument, each at concrete inputs. -/
theorem usage_errors_precede_native_calls_witness :
    (luv_run (fun _ => 0) (some "bogus") { mode := -1 }).nativeCalled
        = false ∧
    (luv_poll_start 0
        (.udata "uv_poll"
          { typ := .UV_POLL, dataSet := true, active := false,
            watchedEvents := 0 })
        (some "q") (.func 0)).nativeCalled = false ∧
    (luv_poll_stop .nil).outcome.isRaised = true :=
  ⟨(usage_errors_precede_native_calls.1 (fun _ => 0) { mode := -1 }
      "bogus" (by decide)).1,
   (usage_errors_precede_native_calls.2.1 0
      (.udata "uv_poll"
        { typ := .UV_POLL, dataSet := true, active := false,
          watchedEvents := 0 })
      "q" (.func 0) (by decide)).1,
   (usage_errors_precede_native_calls.2.2 0 .nil none (.func 0)
      (by decide)).2.2.2.2.2⟩

/-- C7: when the native init of a poll watch reports a negative
status, `new_poll` / `new_socket_poll` return that status as a
reported named error and never reach `luv_setup_handle` — no bridge
association is established, the partially-created userdata is
discarded; on a non-negative status the wrapper is returned with its
bridge association (`handle->data`) set. -/
theorem new_poll_error_no_registration (initRet sockRet : Int → Int)
    (fd : Int) :
    (initRet fd < 0 →
      (luv_new_poll initRet fd).registered = false ∧
      (luv_new_poll initRet fd).outcome = .err (initRet fd)) ∧
    (0 ≤ initRet fd →
      (luv_new_poll initRet fd).registered = true ∧
      (luv_new_poll initRet fd).outcome
        = .ok { typ := .UV_POLL, dataSet := true, active := false,
                watchedEvents := 0 }) ∧
    (sockRet fd < 0 →
      (luv_new_socket_poll sockRet fd).registered = false ∧
      (luv_new_socket_poll sockRet fd).outcome = .err (sockRet fd)) ∧
    (0 ≤ sockRet fd →
      (luv_new_socket_poll sockRet fd).registered = true ∧
      (luv_new_socket_poll sockRet fd).outcome
        = .ok { typ := .UV_POLL, dataSet := true, active := false,
                watchedEvents := 0 }) := by
  refine ⟨fun h => ?_, fun h => ?_, fun h => ?_, fun h => ?_⟩ <;>
    simp_all [luv_new_poll, luv_new_socket_poll, not_lt.mpr h]

/-- Witness for C7: a failing init (EBADF = -9) and a succeeding one
at concrete descriptors. -/
theorem new_poll_error_no_registration_witness :
    (luv_new_poll (fun _ => -9) 7).registered = false ∧
    (luv_new_poll (fun _ => 0) 7).registered = true ∧
    (luv_new_socket_poll (fun _ => -9) 7).registered = false :=
  ⟨((new_poll_error_no_registration (fun _ => -9) (fun _ => -9) 7).1
      (by decide)).1,
   ((new_poll_error_no_registration (fun _ => 0) (fun _ => 0) 7).2.1
      (by decide)).1,
   ((new_poll_error_no_registration (fun _ => -9) (fun _ => -9)
      7).2.2.1 (by decide)).1⟩

/-- C8: after a poll handle is started and then stopped, the first
stop returns the success result 0, a second stop also succeeds with
the same success result and leaves the handle unchanged, and after a
stop has returned no further readiness callback is delivered for that
handle, whatever status/events the engine would have reported. -/
theorem poll_stop_idempotent (r : Int) (hr : 0 ≤ r) (h : PollHandle)
    (hT : h.typ = .UV_POLL) (hD : h.dataSet = true)
    (mask : Option String) (cbid : Nat) (idx : Nat)
    (hm : luaL_checkoption (luv_pollevents true true) (some "rw") mask
        = .ok idx) :
    (luv_poll_stop
        (luv_poll_start r (.udata "uv_poll" h) mask
          (.func cbid)).valueAfter).outcome = .ok 0 ∧
    (luv_poll_stop
        (luv_poll_stop
          (luv_poll_start r (.udata "uv_poll" h) mask
            (.func cbid)).valueAfter).valueAfter).outcome = .ok 0 ∧
    (luv_poll_stop
        (luv_poll_stop
          (luv_poll_start r (.udata "uv_poll" h) mask
            (.func cbid)).valueAfter).valueAfter).valueAfter
      = (luv_poll_stop
          (luv_poll_start r (.udata "uv_poll" h) mask
            (.func cbid)).valueAfter).valueAfter ∧
    (∀ h' : PollHandle,
      (luv_poll_stop
          (luv_poll_start r (.udata "uv_poll" h) mask
            (.func cbid)).valueAfter).valueAfter
          = .udata "uv_poll" h' →
      h'.active = false ∧
      ∀ (err_name : Int → String) (status : Int) (events : Nat),
        deliverPoll err_name h' status events = none) := by
  have hcp : luv_check_poll (.udata "uv_poll" h) = .ok h := by
    simp [luv_check_poll, hT, hD]
  simp [luv_poll_start, hcp, hm, luv_check_callback,
    uv_poll_start_model, not_lt.mpr hr, luv_poll_stop, luv_check_poll,
    hT, hD, uv_poll_stop_model, luv_result, deliverPoll]

/-- Witness for C8: start with mask "r" then stop twice, on a concrete
fresh handle. -/
theorem poll_stop_idempotent_witness :
    (luv_poll_stop
        (luv_poll_stop
          (luv_poll_start 0
            (.udata "uv_poll"
              { typ := .UV_POLL, dataSet := true, active := false,
                watchedEvents := 0 })
            (some "r") (.func 0)).valueAfter).valueAfter).outcome
      = .ok 0 :=
  (poll_stop_idempotent 0 (by decide)
    { typ := .UV_POLL, dataSet := true, active := false,
      watchedEvents := 0 }
    (by decide) (by decide) (some "r") 0 0 (by rfl)).2.1

/-- C9: `backend_fd` returns nil exactly when the native query
returns `-1` (the no-backend sentinel) and the descriptor unchanged
otherwise; `backend_timeout` passes the native value through, so with
no active watch pending it returns the no-timeout sentinel `-1`, and
a pending timeout of `t` milliseconds is returned as `t`. -/
theorem backend_introspection (nativeFd : Int) (t : Nat) :
    (luv_backend_fd nativeFd = none ↔ nativeFd = -1) ∧
    (nativeFd ≠ -1 → luv_backend_fd nativeFd = some nativeFd) ∧
    luv_backend_timeout (uv_backend_timeout_model none) = -1 ∧
    luv_backend_timeout (uv_backend_timeout_model (some t))
      = (t : Int) := by
  refine ⟨?_, fun h => ?_, rfl, rfl⟩
  · unfold luv_backend_fd
    split_ifs with hfd <;> simp [hfd]
  · simp [luv_backend_fd, h]

/-- Witness for C9: a real backend fd, the no-backend sentinel, and
the no-timeout sentinel, at concrete values. -/
theorem backend_introspection_witness :
    luv_backend_fd 5 = some 5 ∧ luv_backend_fd (-1) = none ∧
    luv_backend_timeout (uv_backend_timeout_model none) = -1 :=
  ⟨(backend_introspection 5 0).2.1 (by decide),
   (backend_introspection (-1) 0).1.mpr (by decide),
   (backend_introspection 5 0).2.2.1⟩

/-- C10: `poll_start` with the event-mask argument absent or nil
behaves exactly as if `"rw"` had been passed — the traces coincide for
every handle value, callback, and native status — and on a valid
handle the mask requested of the native start is
readable|writable. -/
theorem poll_start_default_mask (nativeRet : Int) (v : LuaValue)
    (cb : LuaValue) :
    luv_poll_start nativeRet v none cb
        = luv_poll_start nativeRet v (some "rw") cb ∧
    (luv_poll_start nativeRet
        (.udata "uv_poll"
          { typ := .UV_POLL, dataSet := true, active := false,
            watchedEvents := 0 })
        none (.func 0)).eventsRequested
      = some (UV_READABLE ||| UV_WRITABLE) := by
  constructor
  · cases hv : luv_check_poll v with
    | error e => simp [luv_poll_start, hv]
    | ok hh => simp only [luv_poll_start, hv]; rfl
  · rfl
